import Mathlib

/-!
# safe_data: validated-value wrapper and its operator forwarding layer

Shallow embedding of `include/safe_data/operators.h` (the binary, logical and
compound-assignment operator overloads for `safe<T,V,I>`), together with the part of
the wrapper class itself (`safe.h`) that the operators call, and of the wrapper types,
constants and strategies that `test/test.cpp` declares.  The class is not among the
available sources; its members are modelled from the specification and marked so.

Conventions.

* A C++ statement that may throw is a function into `Outcome S E`: the state
  afterwards together with the exception raised, if any.  A C++ expression that
  builds a new object and may throw is a function into `Except E _`.
* The raw types are template parameters.  Their operators are therefore parameters of
  the model: one `RawOp` record per operator symbol, holding the binary form `a ⊗ b`,
  the implicit conversion of its result to the type of the left operand, and the
  compound form `a ⊗= b`.  The thirty binary and thirty compound overloads of
  operators.h differ only in the operator symbol, so each overload shape is one
  definition, parametric in the `RawOp`.
* Raw operators are total and pure here.  Where C++ leaves a raw operation undefined
  (integer division by zero, an out-of-range shift) the model says nothing.
-/

namespace safe_data

/-! ## Exceptions and statements -/

/-- State after a statement that may throw, with the exception it raised (if any). -/
structure Outcome (S E : Type) where
  state : S
  raised : Option E

/-- Modelled from the spec: the Domain Errors of exceptions.h (not among the sources).
An Invalid Value error carries the rejected value; Missing Initial Value carries
nothing. -/
inductive DomainError (T : Type) where
  | invalid_value (offending : T)
  | missing_initial_value
  deriving DecidableEq, Repr

/-! ## Validation strategies -/

/-- Validation strategy `V`: a stateless rule `validate(candidate)` that returns
normally or throws its exception type `E` (as `date_validation::validate` in
test.cpp:342-347 does). -/
structure Validation (T E : Type) where
  validate : T → Except E Unit

/-- Modelled from the spec: `max_validation<T, bound>` of validations.h (not among the
sources), "an integer wrapper with max bound 32": values above the bound are
rejected, there is no lower bound. -/
def max_validation (bound : Int) : Validation Int (DomainError Int) where
  validate c := if c ≤ bound then .ok () else .error (.invalid_value c)

/-- Modelled from the spec: `range_validation<T, lower, upper>` of validations.h (not
among the sources), a bound `[lower, upper]` on the value.  Doubles are read as exact
rationals. -/
def range_validation (lower upper : ℚ) : Validation ℚ (DomainError ℚ) where
  validate c := if lower ≤ c ∧ c ≤ upper then .ok () else .error (.invalid_value c)

/-! ## The owning wrapper `safe<T,V,I>` -/

/-- Modelled from the spec: the Wrapped Value `safe<T,V,I>` of safe.h (not among the
sources) for a non-reference `T`: it owns one `underlying` value of the raw type.  The
validation strategy is a parameter of the type, as in the template. -/
structure safe {T E : Type} (V : Validation T E) where
  underlying : T

/-- Modelled from the spec: `read() -> T`, in the source `data()`: "never fails, never
mutates". -/
def safe.data {T E : Type} {V : Validation T E} (w : safe V) : T :=
  w.underlying

/-- Modelled from the spec: `construct(v: T)`: "underlying ← v; validate immediately;
fails with Domain Error and leaves the wrapper unconstructed if invalid". -/
def safe.construct {T E : Type} (V : Validation T E) (v : T) : Except E (safe V) :=
  match V.validate v with
  | .ok _ => .ok { underlying := v }
  | .error e => .error e

/-- Modelled from the spec: `assign(v: T)`, in the source `operator=`: "computes
candidate = v; calls validation_strategy.check(candidate); on success commits
underlying ← candidate and returns success; on failure throws/returns Domain Error and
leaves underlying unchanged". -/
def safe.assign {T E : Type} {V : Validation T E} (w : safe V) (v : T) :
    Outcome (safe V) E :=
  let candidate := v
  match V.validate candidate with
  | .ok _ => { state := { w with underlying := candidate }, raised := none }
  | .error e => { state := w, raised := some e }

/-- Modelled from the spec: `validate()`: "re-runs validation_strategy.check(underlying)
without mutating ... Fails with Domain Error if the current value no longer satisfies
the invariant". -/
def safe.validate {T E : Type} {V : Validation T E} (w : safe V) : Outcome (safe V) E :=
  match V.validate w.underlying with
  | .ok _ => { state := w, raised := none }
  | .error e => { state := w, raised := some e }

/-- Modelled from the spec: `swap(other)`: "exchanges `underlying` between two wrappers
of the same instantiation without re-validating".  Returns the two wrappers afterwards,
receiver first. -/
def safe.swap {T E : Type} {V : Validation T E} (w other : safe V) : safe V × safe V :=
  ({ w with underlying := other.underlying }, { other with underlying := w.underlying })

/-! ## The reference variant `safe<T&,V,I>` -/

/-- Address of a caller-owned raw value. -/
abbrev Loc := Nat

/-- Caller-owned storage: the raw value held at every address. -/
abbrev Store (T : Type) := Loc → T

/-- Modelled from the spec: the Reference Variant `safe<T&,V,I>` of safe.h (not among
the sources): the wrapper holds no value of its own, only the address of the external
location it aliases. -/
structure safe_ref {T E : Type} (V : Validation T E) where
  ref : Loc

/-- Modelled from the spec: `read()` on the reference variant reads the aliased
location. -/
def safe_ref.data {T E : Type} {V : Validation T E} (w : safe_ref V) (σ : Store T) : T :=
  σ w.ref

/-- Modelled from the spec: "construct with alias → Synced (validated at construction)
or fails with Domain Error"; the aliased storage is not written. -/
def safe_ref.construct {T E : Type} (V : Validation T E) (e : Loc) (σ : Store T) :
    Except E (safe_ref V) :=
  match V.validate (σ e) with
  | .ok _ => .ok { ref := e }
  | .error err => .error err

/-- Modelled from the spec: "`assign()` through the wrapper → Synced (validated at
commit) or fails, aliased storage left at prior value". -/
def safe_ref.assign {T E : Type} {V : Validation T E} (w : safe_ref V) (v : T)
    (σ : Store T) : Outcome (Store T) E :=
  let candidate := v
  match V.validate candidate with
  | .ok _ => { state := Function.update σ w.ref candidate, raised := none }
  | .error e => { state := σ, raised := some e }

/-- Modelled from the spec: `validate()` on the reference variant "re-checks the
current aliased value" and mutates nothing. -/
def safe_ref.validate {T E : Type} {V : Validation T E} (w : safe_ref V) (σ : Store T) :
    Outcome (Store T) E :=
  match V.validate (σ w.ref) with
  | .ok _ => { state := σ, raised := none }
  | .error e => { state := σ, raised := some e }

/-! ## Raw operators -/

/-- One of the ten raw operators `+ - * / % & | ^ << >>` between a left operand of type
`A` and a right operand of type `B`, as the raw types provide it.

* `binary a b` is the value of the expression `a ⊗ b`, of its own result type `R`;
* `conv` is the implicit conversion from `R` to `A` that C++ inserts where such a value
  is passed to `safe<A,V,I>`'s constructor or assignment, or returned from a function
  whose return type is `A` (the identity when `R` is `A`);
* `compound a b` is the value left in `a` by the statement `a ⊗= b`. -/
structure RawOp (A B R : Type) where
  binary : A → B → R
  conv : R → A
  compound : A → B → A

/-! ## operators.h: binary operators -/

/-- Overload `safe<T,V,I> operator⊗ (safe<T,V,I> const& lhs, safe<T2,V2,I2> const& rhs)`,
body `return safe<T,V,I>(lhs.data() ⊗ rhs.data());`
(operators.h:26-28, 40-42, 54-56, 68-70, 81-83, 130-132, 143-145, 157-159, 171-173,
184-186). -/
def operator_safe_safe {T E T2 E2 R : Type} {V : Validation T E} {V2 : Validation T2 E2}
    (op : RawOp T T2 R) (lhs : safe V) (rhs : safe V2) : Except E (safe V) :=
  safe.construct V (op.conv (op.binary lhs.data rhs.data))

/-- Overload `safe<T,V,I> operator⊗ (safe<T,V,I> const& lhs, Y const& rhs)`,
body `return safe<T,V,I>(lhs.data() ⊗ rhs);`
(operators.h:30-32, 44-46, 58-60, 72-74, 85-87, 134-136, 147-149, 161-163, 175-177,
188-190). -/
def operator_safe_raw {T E Y R : Type} {V : Validation T E}
    (op : RawOp T Y R) (lhs : safe V) (rhs : Y) : Except E (safe V) :=
  safe.construct V (op.conv (op.binary lhs.data rhs))

/-- Overload `Y operator⊗ (Y const& lhs, safe<T,V,I> const& rhs)`,
body `return lhs ⊗ rhs.data();` with return type `Y`
(operators.h:34-36, 48-50, 62-64, 76-78, 89-91, 138-140, 151-153, 165-167, 179-181,
192-194). -/
def operator_raw_safe {T E Y R : Type} {V : Validation T E}
    (op : RawOp Y T R) (lhs : Y) (rhs : safe V) : Y :=
  op.conv (op.binary lhs rhs.data)

/-! ## operators.h: logical operators

The raw `&&` or `||` is the parameter `op`; its result is a `bool`. -/

/-- Overload `bool operator&& / operator|| (safe<T,V,I> const&, safe<T2,V2,I2> const&)`,
body `return lhs.data() && rhs.data();` (operators.h:99-101, 113-115). -/
def logical_safe_safe {T E T2 E2 : Type} {V : Validation T E} {V2 : Validation T2 E2}
    (op : T → T2 → Bool) (lhs : safe V) (rhs : safe V2) : Bool :=
  op lhs.data rhs.data

/-- Overload `bool operator&& / operator|| (safe<T,V,I> const&, Y const&)`,
body `return lhs.data() && rhs;` (operators.h:103-105, 117-119). -/
def logical_safe_raw {T E Y : Type} {V : Validation T E}
    (op : T → Y → Bool) (lhs : safe V) (rhs : Y) : Bool :=
  op lhs.data rhs

/-- Overload `bool operator&& / operator|| (Y const&, safe<T,V,I> const&)`,
body `return lhs && rhs.data();` (operators.h:107-109, 121-123). -/
def logical_raw_safe {T E Y : Type} {V : Validation T E}
    (op : Y → T → Bool) (lhs : Y) (rhs : safe V) : Bool :=
  op lhs rhs.data

/-! ## operators.h: compound assignment operators -/

/-- Overload `safe<T,V,I>& operator⊗= (safe<T,V,I>& lhs, safe<T2,V2,I2> const& rhs)`
(operators.h:202-210, 228-236, 254-262, 280-288, 306-314, 332-340, 359-367, 386-394,
413-421, 439-447):
`raw_type data(lhs.data()); data ⊗= rhs.data(); lhs = data; return lhs;` -/
def compound_safe_safe {T E T2 E2 R : Type} {V : Validation T E} {V2 : Validation T2 E2}
    (op : RawOp T T2 R) (lhs : safe V) (rhs : safe V2) : Outcome (safe V) E :=
  let data : T := lhs.data
  let data : T := op.compound data rhs.data
  lhs.assign data

/-- Overload `safe<T,V,I>& operator⊗= (safe<T,V,I>& lhs, Y const& rhs)`
(operators.h:212-220, 238-246, 264-272, 290-298, 316-324, 342-350, 369-377, 396-404,
423-431, 449-457):
`raw_type data(lhs.data()); data ⊗= rhs; lhs = data; return lhs;` -/
def compound_safe_raw {T E Y R : Type} {V : Validation T E}
    (op : RawOp T Y R) (lhs : safe V) (rhs : Y) : Outcome (safe V) E :=
  let data : T := lhs.data
  let data : T := op.compound data rhs
  lhs.assign data

/-- Overload `Y& operator⊗= (Y& lhs, safe<T,V,I> const& rhs)`, body
`lhs ⊗= rhs.data(); return lhs;` (operators.h:222-224, 248-250, 274-276, 300-302,
326-328, 352-354, 379-381, 406-408, 433-435, 459-461).  The result is the value of the
raw location `lhs` afterwards; `rhs` is taken by reference to const and is not
written. -/
def compound_raw_safe {T E Y R : Type} {V : Validation T E}
    (op : RawOp Y T R) (lhs : Y) (rhs : safe V) : Y :=
  op.compound lhs rhs.data

/-! ### The same overloads instantiated at the reference variant

For `T = U&` the typedef `safe_detail::types<T>::raw_type` is `U`, so `data` is a local
copy of the aliased value and not the aliased location. -/

/-- The overload `operator⊗= (safe<T,V,I>& lhs, Y const& rhs)` at a reference-variant
left operand: `raw_type data(lhs.data()); data ⊗= rhs; lhs = data; return lhs;` run on
the caller's storage `σ`. -/
def compound_ref_raw {T E Y R : Type} {V : Validation T E}
    (op : RawOp T Y R) (lhs : safe_ref V) (rhs : Y) (σ : Store T) : Outcome (Store T) E :=
  let data : T := lhs.data σ
  let data : T := op.compound data rhs
  lhs.assign data σ

/-- The overload `operator⊗= (safe<T,V,I>& lhs, safe<T2,V2,I2> const& rhs)` at a
reference-variant left operand and an owning right operand. -/
def compound_ref_safe {T E T2 E2 R : Type} {V : Validation T E} {V2 : Validation T2 E2}
    (op : RawOp T T2 R) (lhs : safe_ref V) (rhs : safe V2) (σ : Store T) :
    Outcome (Store T) E :=
  let data : T := lhs.data σ
  let data : T := op.compound data rhs.data
  lhs.assign data σ

/-- The overload `Y& operator⊗= (Y& lhs, safe<T,V,I> const& rhs)` where the raw
location `lhs` is the address `y` in the caller's storage and `rhs` is a
reference-variant wrapper over the same storage: `lhs ⊗= rhs.data();`. -/
def compound_raw_ref {T E R : Type} {V : Validation T E}
    (op : RawOp T T R) (y : Loc) (rhs : safe_ref V) (σ : Store T) : Store T :=
  Function.update σ y (op.compound (σ y) (rhs.data σ))

/-! ## The specification's wording of the operators, for comparison -/

/-- The raw type's compound form agrees with its binary form: `a ⊗= b` leaves in `a`
the value of `a ⊗ b` converted to the type of `a`.  C++ guarantees this for the
built-in types; for a class type the two are separate functions. -/
def RawOp.agrees {A B R : Type} (op : RawOp A B R) : Prop :=
  ∀ a b, op.compound a b = op.conv (op.binary a b)

/-- The specification's wording of `w ⊗= x` on an owning wrapper:
`assign(w.read() ⊗ x)`. -/
def spec_compound_assign {T E Y R : Type} {V : Validation T E}
    (op : RawOp T Y R) (w : safe V) (x : Y) : Outcome (safe V) E :=
  w.assign (op.conv (op.binary w.data x))

/-- The specification's wording of `w ⊗= x` on a reference-variant wrapper:
`assign(w.read() ⊗ x)` through the wrapper. -/
def spec_compound_assign_ref {T E Y R : Type} {V : Validation T E}
    (op : RawOp T Y R) (w : safe_ref V) (x : Y) (σ : Store T) : Outcome (Store T) E :=
  w.assign (op.conv (op.binary (w.data σ) x)) σ

/-- The specification's wording of the logical operators in the wrapper-producing
shapes: "wrap the raw result using the left operand's wrapper type; the new wrapper's
construction step re-validates the result".  `conv` is the conversion from `bool` to
the raw type. -/
def spec_logical_safe_raw {T E Y : Type} {V : Validation T E}
    (op : T → Y → Bool) (conv : Bool → T) (lhs : safe V) (rhs : Y) : Except E (safe V) :=
  safe.construct V (conv (op lhs.data rhs))

/-! ## Out-of-band writes to aliased storage -/

/-- The external owner assigns to its own variable, bypassing any wrapper that aliases
it (test.cpp:279, `pod_d = 100;`). -/
def external_write {T : Type} (e : Loc) (v : T) (σ : Store T) : Store T :=
  Function.update σ e v

/-! ## Default construction -/

/-- Default-value strategy `I`: "a stateless supplier `value() -> T`". -/
structure Initial (T : Type) where
  value : T

/-- Modelled from the spec: the "fixed default" strategy, which "returns a
compile-time-bound constant" (`int_<8>`, `c_str<...>`, `SAFE_DATA_INITIAL_VALUE` in
test.cpp). -/
def fixed_initial {T : Type} (c : T) : Initial T where
  value := c

/-- The strategy `no_initial<T>` of values.h (not among the sources), as test.cpp
fixes it.  `safe_short` (test.cpp:297-301) names `no_initial<short>` and the test says
of its default construction "invalid initial value: 0 is less than 3" and
`bad_i == 0`; `uninitialized_date` (test.cpp:351) is default-constructed without an
exception in the release branch (test.cpp:367) and then fails `date_validation`.  So
the strategy supplies the value `T()` of a variable of type `T` built with no arguments, given here as
`zero`. -/
def no_initial {T : Type} (zero : T) : Initial T where
  value := zero

/-- Build configuration: `strict` is the debug build (`NDEBUG` not defined), `deferred`
the release build (test.cpp:359-375). -/
inductive BuildConfig where
  | strict
  | deferred
  deriving DecidableEq, Repr

/-- Modelled from the spec: `construct()`: "underlying ← default_strategy.value();
underlying is then validated", where an invalid default "throws at construction
[strict] or is silently accepted pending an explicit `validate()` call [deferred]". -/
def safe.construct_default {T E : Type} (cfg : BuildConfig) (V : Validation T E)
    (I : Initial T) : Except E (safe V) :=
  let underlying := I.value
  match cfg with
  | .strict => safe.construct V underlying
  | .deferred => .ok { underlying := underlying }

/-! ## The strategies and types of test.cpp -/

/-- Modelled from the spec: `min_validation<T, bound>` of validations.h (not among the
sources): values below the bound are rejected. -/
def min_validation (bound : Int) : Validation Int (DomainError Int) where
  validate c := if bound ≤ c then .ok () else .error (.invalid_value c)

/-- Modelled from the spec: `str_length_validation<string, max>` of validations.h (not
among the sources), "a string-length-bounded wrapper (max length 8)".  A `String` here
is a sequence of C++ `char`s. -/
def str_length_validation (max : Nat) : Validation String (DomainError String) where
  validate s := if s.length ≤ max then .ok () else .error (.invalid_value s)

/-- The constant of `SAFE_DATA_INITIAL_VALUE(percent_min, double, 0.0)`
(test.cpp:85). -/
def percent_min : ℚ := 0

/-- The constant of `SAFE_DATA_INITIAL_VALUE(percent_max, double, 0.0)`
(test.cpp:86). -/
def percent_max : ℚ := 0

/-- The strategy `percent_validation<double>` (test.cpp:112-125): the
`range_validation` between `percent_min` and `percent_max`. -/
def percent_validation : Validation ℚ (DomainError ℚ) :=
  range_validation percent_min percent_max

/-- The wrapper type `percent` (test.cpp:127),
`safe<double, percent_validation<double> >`. -/
abbrev percent := safe percent_validation

/-- The wrapper type `safe_int` (test.cpp:178),
`safe<int, max_validation<int, int_<32> >, int_<8> >`. -/
abbrev safe_int := safe (max_validation 32)

/-- The default-value strategy `int_<8>` of `safe_int`. -/
def safe_int_initial : Initial Int := fixed_initial 8

/-- The wrapper type `safe_str` (test.cpp:221),
`safe<string, str_length_validation<string, size_t<8> >, str_initial>`. -/
abbrev safe_str := safe (str_length_validation 8)

/-- The default-value strategy `str_initial` (test.cpp:218), the fixed string "foo". -/
def str_initial : Initial String := fixed_initial "foo"

/-- The wrapper type `safe_dbl` (test.cpp:249),
`safe<double&, range_validation<double, int_<0>, int_<10> > >`. -/
abbrev safe_dbl := safe_ref (range_validation 0 10)

/-- A `boost::gregorian::date`: a calendar day or the special value not-a-date, which
is what the default constructor of `date` gives. -/
inductive date where
  | not_a_date
  | day (n : Nat)
  deriving DecidableEq, Repr

/-- The strategy `date_validation` (test.cpp:342-347):
`if ( d.is_not_a_date() ) throw std::runtime_error("Date must be initialized");` -/
def date_validation : Validation date String where
  validate d :=
    match d with
    | .not_a_date => .error "Date must be initialized"
    | .day _ => .ok ()

/-! ## Raw operators of concrete types -/

/-- `int + int` and `int += int`, away from overflow. -/
def int_plus : RawOp Int Int Int where
  binary a b := a + b
  conv r := r
  compound a b := a + b

/-- `std::string + std::string` and `std::string += std::string`: concatenation. -/
def string_plus : RawOp String String String where
  binary a b := a ++ b
  conv r := r
  compound a b := a ++ b

/-- `double * int` and `double *= int`, doubles read as exact rationals. -/
def double_times_int : RawOp ℚ Int ℚ where
  binary a b := a * b
  conv r := r
  compound a b := a * b

/-- `double / int` and `double /= int`, doubles read as exact rationals. -/
def double_div_int : RawOp ℚ Int ℚ where
  binary a b := a / b
  conv r := r
  compound a b := a / b

/-- `unsigned char + unsigned int`: both operands are converted to `unsigned int` and
added modulo 2^32; the conversion of that result back to `unsigned char` is modulo
2^8. -/
def uchar_plus_uint : RawOp Nat Nat Nat where
  binary a b := (a + b) % 2 ^ 32
  conv r := r % 2 ^ 8
  compound a b := ((a + b) % 2 ^ 32) % 2 ^ 8

/-- A class type over `int` whose `operator+` is plain addition and whose `operator+=`
saturates at 100. -/
def saturating_plus : RawOp Int Int Int where
  binary a b := a + b
  conv r := r
  compound a b := min (a + b) 100

/-- The built-in `&&` between two `short`s: both operands are converted to `bool`. -/
def short_and (a b : Int) : Bool :=
  decide (a ≠ 0) && decide (b ≠ 0)

/-- The built-in `||` between two `short`s. -/
def short_or (a b : Int) : Bool :=
  decide (a ≠ 0) || decide (b ≠ 0)

/-- Conversion from `bool` to `short`: `true` is 1 and `false` is 0. -/
def bool_to_short (b : Bool) : Int :=
  if b then 1 else 0

/-! ## A program state of several wrappers of one instantiation -/

/-- One mutating operation on the wrappers `w 0, w 1, ...` of a program, all of the
instantiation `safe<T,V,I>`: an assignment, a compound assignment with a raw or a
wrapper right operand (any of the ten operators), or a swap. -/
inductive Command (T Y R : Type) where
  | assign (i : Nat) (c : T)
  | compound_raw (i : Nat) (op : RawOp T Y R) (x : Y)
  | compound_safe (i j : Nat) (op : RawOp T T R)
  | swap (i j : Nat)

/-- Run one command; an exception it raises is caught by the caller and execution
continues with the state the command left. -/
def Command.run {T E Y R : Type} {V : Validation T E} (c : Command T Y R)
    (w : Nat → safe V) : Nat → safe V :=
  match c with
  | .assign i v => Function.update w i ((w i).assign v).state
  | .compound_raw i op x => Function.update w i (compound_safe_raw op (w i) x).state
  | .compound_safe i j op => Function.update w i (compound_safe_safe op (w i) (w j)).state
  | .swap i j =>
      let p := safe.swap (w i) (w j)
      Function.update (Function.update w i p.1) j p.2

/-- Run a sequence of commands in order. -/
def run_all {T E Y R : Type} {V : Validation T E} (cs : List (Command T Y R))
    (w : Nat → safe V) : Nat → safe V :=
  cs.foldl (fun s c => c.run s) w

/-- A validation strategy that accepts every value (an instantiation used in examples;
its exception type has no values). -/
def accept_all (T : Type) : Validation T Empty where
  validate _ := .ok ()

/-! ## The wrapper-wrapper compound overload on operands that may be one object -/

/-- The overload `operator⊗= (safe<T,V,I>& lhs, safe<T2,V2,I2> const& rhs)`
(operators.h:202-210 and its nine siblings) called on the wrappers `w i` and `w j` of a
program state, which are the same object when `i = j`:
`raw_type data(lhs.data()); data ⊗= rhs.data(); lhs = data; return lhs;`.
Both reads happen in the state before the call; the only write is the assignment to
`lhs`. -/
def compound_at {T E R : Type} {V : Validation T E} (op : RawOp T T R) (i j : Nat)
    (w : Nat → safe V) : Outcome (Nat → safe V) E :=
  let data : T := (w i).data
  let data : T := op.compound data (w j).data
  let assigned := (w i).assign data
  { state := Function.update w i assigned.state, raised := assigned.raised }

/-- The same overload on two reference-variant wrappers over the caller's storage,
which alias one location when `lhs.ref = rhs.ref`. -/
def compound_ref_ref {T E E2 R : Type} {V : Validation T E} {V2 : Validation T E2}
    (op : RawOp T T R) (lhs : safe_ref V) (rhs : safe_ref V2) (σ : Store T) :
    Outcome (Store T) E :=
  let data : T := lhs.data σ
  let data : T := op.compound data (rhs.data σ)
  lhs.assign data σ

/-! # Theorems -/

/-! ## Shared facts about the modelled members -/

theorem assign_ok {T E : Type} {V : Validation T E} (w : safe V) (c : T)
    (h : V.validate c = .ok ()) :
    w.assign c = { state := { underlying := c }, raised := none } := by
  simp [safe.assign, h]

theorem assign_error {T E : Type} {V : Validation T E} (w : safe V) (c : T) (e : E)
    (h : V.validate c = .error e) :
    w.assign c = { state := w, raised := some e } := by
  simp [safe.assign, h]

theorem ref_assign_ok {T E : Type} {V : Validation T E} (w : safe_ref V) (c : T)
    (σ : Store T) (h : V.validate c = .ok ()) :
    w.assign c σ = { state := Function.update σ w.ref c, raised := none } := by
  simp [safe_ref.assign, h]

theorem ref_assign_error {T E : Type} {V : Validation T E} (w : safe_ref V) (c : T)
    (σ : Store T) (e : E) (h : V.validate c = .error e) :
    w.assign c σ = { state := σ, raised := some e } := by
  simp [safe_ref.assign, h]

theorem construct_ok {T E : Type} (V : Validation T E) (v : T)
    (h : V.validate v = .ok ()) : safe.construct V v = .ok { underlying := v } := by
  simp [safe.construct, h]

theorem construct_error {T E : Type} (V : Validation T E) (v : T) (e : E)
    (h : V.validate v = .error e) : safe.construct V v = .error e := by
  simp [safe.construct, h]

theorem validate_cases {T E : Type} (V : Validation T E) (c : T) :
    V.validate c = .ok () ∨ ∃ e, V.validate c = .error e := by
  cases h : V.validate c with
  | ok u => exact Or.inl rfl
  | error e => exact Or.inr ⟨e, rfl⟩

theorem construct_characterised {T E : Type} (V : Validation T E) (v : T) :
    ((∃ w, safe.construct V v = .ok w) ↔ V.validate v = .ok ()) ∧
      (∀ w, safe.construct V v = .ok w → w.data = v) ∧
      (∀ e, V.validate v = .error e → safe.construct V v = .error e) := by
  refine ⟨?_, ?_, ?_⟩
  · rcases validate_cases V v with h | ⟨e, h⟩
    · simp [construct_ok V v h, h]
    · simp [construct_error V v e h, h]
  · intro w hw
    rcases validate_cases V v with h | ⟨e, h⟩
    · rw [construct_ok V v h] at hw
      cases hw
      rfl
    · rw [construct_error V v e h] at hw
      cases hw
  · intro e h
    exact construct_error V v e h

theorem assign_state_valid {T E : Type} {V : Validation T E} (w : safe V) (c : T)
    (hw : V.validate w.data = .ok ()) : V.validate (w.assign c).state.data = .ok () := by
  rcases validate_cases V c with h | ⟨e, h⟩
  · rw [assign_ok w c h]; exact h
  · rw [assign_error w c e h]; exact hw

/-! ## C1: compound assignment against `assign(u ⊗ x)` -/

/-- C1, as stated, fails: for a raw type whose `+=` saturates at 100 while its `+` does
not, under a maximum bound of 100 the wrapper reading 60 accepts `w += 50` and then
reads 100, whereas `assign(60 + 50)` raises Invalid Value for 110 and leaves 60. -/
theorem compound_assign_not_assign_of_binary :
    (compound_safe_raw saturating_plus ({ underlying := 60 } : safe (max_validation 100)) 50).raised
        = none ∧
      (compound_safe_raw saturating_plus
        ({ underlying := 60 } : safe (max_validation 100)) 50).state.data = 100 ∧
      (max_validation 100).validate (saturating_plus.conv (saturating_plus.binary 60 50))
        = .error (.invalid_value 110) ∧
      (spec_compound_assign saturating_plus
        ({ underlying := 60 } : safe (max_validation 100)) 50).raised
        = some (.invalid_value 110) ∧
      (spec_compound_assign saturating_plus
        ({ underlying := 60 } : safe (max_validation 100)) 50).state.data = 60 := by
  exact ⟨rfl, rfl, rfl, rfl, rfl⟩

/-- C1 (amended): for every operator ⊗ whose raw compound form agrees with its binary
form, every wrapper `w` (owning, or reference variant `wr` over storage `σ`) and every
right operand (a raw `x`, or a wrapper `r` of any instantiation taken by its read
value), `w ⊗= x` behaves exactly like `assign(u ⊗ x)` with `u` the value read before
the call: when `V.check(u ⊗ x)` succeeds both succeed and leave `w` reading `u ⊗ x`,
and when it fails both raise the same error and leave `w` reading `u`. -/
theorem compound_assign_refines_assign {T E Y R E2 : Type} (V : Validation T E)
    (V2 : Validation Y E2) (op : RawOp T Y R) (w : safe V) (x : Y) (r : safe V2)
    (wr : safe_ref V) (σ : Store T) (hop : op.agrees) :
    compound_safe_raw op w x = spec_compound_assign op w x ∧
      compound_safe_safe op w r = spec_compound_assign op w r.data ∧
      compound_ref_raw op wr x σ = spec_compound_assign_ref op wr x σ ∧
      (V.validate (op.conv (op.binary w.data x)) = .ok () →
        (compound_safe_raw op w x).raised = none ∧
          (compound_safe_raw op w x).state.data = op.conv (op.binary w.data x) ∧
          (spec_compound_assign op w x).raised = none ∧
          (spec_compound_assign op w x).state.data = op.conv (op.binary w.data x)) ∧
      (∀ e, V.validate (op.conv (op.binary w.data x)) = .error e →
        (compound_safe_raw op w x).raised = some e ∧
          (compound_safe_raw op w x).state.data = w.data ∧
          (spec_compound_assign op w x).raised = some e ∧
          (spec_compound_assign op w x).state.data = w.data) := by
  have h1 : compound_safe_raw op w x = spec_compound_assign op w x := by
    simp only [compound_safe_raw, spec_compound_assign, hop w.data x]
  have h2 : compound_safe_safe op w r = spec_compound_assign op w r.data := by
    simp only [compound_safe_safe, spec_compound_assign, hop w.data r.data]
  have h3 : compound_ref_raw op wr x σ = spec_compound_assign_ref op wr x σ := by
    simp only [compound_ref_raw, spec_compound_assign_ref, hop (wr.data σ) x]
  refine ⟨h1, h2, h3, ?_, ?_⟩
  · intro hv
    rw [h1]
    unfold spec_compound_assign
    rw [assign_ok w _ hv]
    exact ⟨rfl, rfl, rfl, rfl⟩
  · intro e hv
    rw [h1]
    unfold spec_compound_assign
    rw [assign_error w _ e hv]
    exact ⟨rfl, rfl, rfl, rfl⟩

/-- C1 (amended), at the test's `safe_int` reading 16 and `+= 1` on `int`. -/
theorem compound_assign_refines_assign_witness :
    int_plus.agrees ∧
      compound_safe_raw int_plus ({ underlying := 16 } : safe_int) 1
        = spec_compound_assign int_plus ({ underlying := 16 } : safe_int) 1 :=
  ⟨fun _ _ => rfl,
    (compound_assign_refines_assign (max_validation 32) (max_validation 32) int_plus
      { underlying := 16 } 1 { underlying := 1 } { ref := 0 } (fun _ => 16)
      (fun _ _ => rfl)).1⟩

/-! ## C2: strong guarantee on assign -/

/-- C2: whenever `V.check(c)` fails with error `e`, `assign(c)` raises `e` and the
wrapper still reads its prior value `u`: the owning wrapper is unchanged, and for the
reference variant the whole of the caller's storage is unchanged. -/
theorem assign_strong_guarantee {T E : Type} (V : Validation T E) (w : safe V)
    (wr : safe_ref V) (σ : Store T) (c : T) (e : E) (h : V.validate c = .error e) :
    (w.assign c).raised = some e ∧ (w.assign c).state.data = w.data ∧
      (w.assign c).state = w ∧
      (wr.assign c σ).raised = some e ∧ (wr.assign c σ).state = σ ∧
      wr.data (wr.assign c σ).state = wr.data σ := by
  rw [assign_error w c e h, ref_assign_error wr c σ e h]
  exact ⟨rfl, rfl, rfl, rfl, rfl, rfl⟩

/-- C2 at test.cpp:196-204: `safe_int` reading 17, `i = 33` raises and 17 stays. -/
theorem assign_strong_guarantee_witness :
    (max_validation 32).validate 33 = .error (.invalid_value 33) ∧
      (({ underlying := 17 } : safe_int).assign 33).raised = some (.invalid_value 33) ∧
      (({ underlying := 17 } : safe_int).assign 33).state.data = 17 :=
  have h := assign_strong_guarantee (max_validation 32) { underlying := 17 } { ref := 0 }
    (fun _ => 17) 33 (.invalid_value 33) rfl
  ⟨rfl, h.1, h.2.1⟩

/-! ## C3: validation on construction -/

/-- C3: `construct(v)` succeeds if and only if `V.check(v)` succeeds; when it succeeds
the new wrapper reads `v`; when `V.check(v)` fails with `e`, the construction raises
`e` and yields no wrapper.  The same holds for constructing a reference variant over
an external location: it succeeds iff the aliased value passes, and then reads it. -/
theorem construct_iff_valid {T E : Type} (V : Validation T E) (v : T) (e0 : Loc)
    (σ : Store T) :
    ((∃ w, safe.construct V v = .ok w) ↔ V.validate v = .ok ()) ∧
      (∀ w, safe.construct V v = .ok w → w.data = v) ∧
      (∀ e, V.validate v = .error e → safe.construct V v = .error e) ∧
      ((∃ w, safe_ref.construct V e0 σ = .ok w) ↔ V.validate (σ e0) = .ok ()) ∧
      (∀ w, safe_ref.construct V e0 σ = .ok w → w.data σ = σ e0) ∧
      (∀ e, V.validate (σ e0) = .error e → safe_ref.construct V e0 σ = .error e) := by
  obtain ⟨h1, h2, h3⟩ := construct_characterised V v
  refine ⟨h1, h2, h3, ?_, ?_, ?_⟩
  · rcases validate_cases V (σ e0) with h | ⟨e, h⟩
    · simp [safe_ref.construct, h]
    · simp [safe_ref.construct, h]
  · intro w hw
    rcases validate_cases V (σ e0) with h | ⟨e, h⟩
    · simp only [safe_ref.construct, h] at hw
      cases hw
      rfl
    · simp only [safe_ref.construct, h] at hw
      cases hw
  · intro e h
    simp [safe_ref.construct, h]

/-! ## C4, C5: the wrapper-producing binary operators -/

/-- C4: for every operator ⊗, `a ⊗ b` on two wrappers is the construction of a wrapper
of the left operand's type from `a.read() ⊗ b.read()` (converted to the left raw
type): it succeeds iff the left strategy accepts that value, the result then reads it,
a failure raises the left strategy's error, and a right operand of any other strategy
with the same read value gives the same outcome. -/
theorem operator_safe_safe_constructs {T E T2 E2 R : Type} (V : Validation T E)
    (V2 : Validation T2 E2) (op : RawOp T T2 R) (a : safe V) (b : safe V2) :
    operator_safe_safe op a b = safe.construct V (op.conv (op.binary a.data b.data)) ∧
      ((∃ w, operator_safe_safe op a b = .ok w) ↔
        V.validate (op.conv (op.binary a.data b.data)) = .ok ()) ∧
      (∀ w, operator_safe_safe op a b = .ok w →
        w.data = op.conv (op.binary a.data b.data)) ∧
      (∀ e, V.validate (op.conv (op.binary a.data b.data)) = .error e →
        operator_safe_safe op a b = .error e) ∧
      (∀ (E3 : Type) (V3 : Validation T2 E3) (c : safe V3), c.data = b.data →
        operator_safe_safe op a c = operator_safe_safe op a b) := by
  have h := construct_characterised V (op.conv (op.binary a.data b.data))
  refine ⟨rfl, h.1, h.2.1, h.2.2, ?_⟩
  intro E3 V3 c hc
  simp only [operator_safe_safe, hc]

/-- C5: for every operator ⊗, `a ⊗ y` with a raw right operand is the construction of
a wrapper of `a`'s type from `a.read() ⊗ y` (converted to `a`'s raw type): it succeeds
iff the strategy accepts that value, the result then reads it, and otherwise the
strategy's error is raised. -/
theorem operator_safe_raw_constructs {T E Y R : Type} (V : Validation T E)
    (op : RawOp T Y R) (a : safe V) (y : Y) :
    operator_safe_raw op a y = safe.construct V (op.conv (op.binary a.data y)) ∧
      ((∃ w, operator_safe_raw op a y = .ok w) ↔
        V.validate (op.conv (op.binary a.data y)) = .ok ()) ∧
      (∀ w, operator_safe_raw op a y = .ok w → w.data = op.conv (op.binary a.data y)) ∧
      (∀ e, V.validate (op.conv (op.binary a.data y)) = .error e →
        operator_safe_raw op a y = .error e) := by
  have h := construct_characterised V (op.conv (op.binary a.data y))
  exact ⟨rfl, h.1, h.2.1, h.2.2⟩

/-! ## C6: raw ⊗ wrapper -/

/-- C6, as stated, fails: with an `unsigned char` 200 on the left and a wrapper over
`unsigned int` reading 100 on the right, `y + b` returns 44, the sum converted to the
declared return type `unsigned char`, whereas `y + b.read()` is 300. -/
theorem operator_raw_safe_not_raw_result :
    operator_raw_safe uchar_plus_uint 200 ({ underlying := 100 } : safe (accept_all Nat)) = 44 ∧
      uchar_plus_uint.binary 200
        ({ underlying := 100 } : safe (accept_all Nat)).data = 300 ∧
      operator_raw_safe uchar_plus_uint 200 ({ underlying := 100 } : safe (accept_all Nat))
        ≠ uchar_plus_uint.binary 200
          ({ underlying := 100 } : safe (accept_all Nat)).data := by
  refine ⟨by decide, by decide, by decide⟩

/-- C6 (amended): for every arithmetic or bitwise operator ⊗, `y ⊗ b` returns an
unwrapped raw value of the raw operand's type: `y ⊗ b.read()` converted to that type,
which is `y ⊗ b.read()` itself whenever the conversion is the identity; for the
logical operators it returns the `bool` `y ⊗ b.read()`.  The result depends on the
wrapper only through its read value, whatever its strategy: no validation is run and
nothing is raised. -/
theorem operator_raw_safe_unwrapped {T E Y R : Type} (V : Validation T E)
    (op : RawOp Y T R) (same : RawOp Y T Y) (logical : Y → T → Bool) (y : Y)
    (b : safe V) :
    operator_raw_safe op y b = op.conv (op.binary y b.data) ∧
      ((∀ r, same.conv r = r) → operator_raw_safe same y b = same.binary y b.data) ∧
      logical_raw_safe logical y b = logical y b.data ∧
      (∀ (E3 : Type) (V3 : Validation T E3) (c : safe V3), c.data = b.data →
        operator_raw_safe op y c = operator_raw_safe op y b ∧
          logical_raw_safe logical y c = logical_raw_safe logical y b) := by
  refine ⟨rfl, ?_, rfl, ?_⟩
  · intro h
    simp only [operator_raw_safe, h]
  · intro E3 V3 c hc
    simp only [operator_raw_safe, logical_raw_safe, hc, and_self]

/-! ## C7: raw ⊗= wrapper -/

/-- C7: for every compound operator, `y ⊗= b` leaves in the raw location `y` the value
its own raw compound operator computes from the old `y` and `b.read()`; the result
depends on `b` only through its read value, whatever its strategy (no validation is
run, nothing is raised).  With a reference-variant `b` over the caller's storage,
only the location `y` is written: every other location, and `b.read()` unless `b`
aliases `y` itself, is as before. -/
theorem compound_raw_safe_native {T E Y R R2 : Type} (V : Validation T E)
    (op : RawOp Y T R) (y : Y) (b : safe V) (opr : RawOp T T R2) (ly : Loc)
    (br : safe_ref V) (σ : Store T) :
    compound_raw_safe op y b = op.compound y b.data ∧
      (∀ (E3 : Type) (V3 : Validation T E3) (c : safe V3), c.data = b.data →
        compound_raw_safe op y c = compound_raw_safe op y b) ∧
      compound_raw_ref opr ly br σ ly = opr.compound (σ ly) (br.data σ) ∧
      (∀ l, l ≠ ly → compound_raw_ref opr ly br σ l = σ l) ∧
      (br.ref ≠ ly → br.data (compound_raw_ref opr ly br σ) = br.data σ) := by
  refine ⟨rfl, ?_, ?_, ?_, ?_⟩
  · intro E3 V3 c hc
    simp only [compound_raw_safe, hc]
  · simp [compound_raw_ref]
  · intro l hl
    simp [compound_raw_ref, Function.update_noteq hl]
  · intro h
    simp [compound_raw_ref, safe_ref.data, Function.update_noteq h]

/-! ## C8: the wrapper invariant -/

theorem construct_result_valid {T E : Type} (V : Validation T E) (v : T) (w : safe V)
    (h : safe.construct V v = .ok w) : V.validate w.data = .ok () := by
  rcases validate_cases V v with hv | ⟨e, hv⟩
  · rw [construct_ok V v hv] at h
    cases h
    exact hv
  · rw [construct_error V v e hv] at h
    cases h

theorem run_keeps_valid {T E Y R : Type} {V : Validation T E} (c : Command T Y R)
    (w : Nat → safe V) (hw : ∀ i, V.validate (w i).data = .ok ()) :
    ∀ i, V.validate (c.run w i).data = .ok () := by
  intro k
  cases c with
  | assign i v =>
    simp only [Command.run]
    by_cases hk : k = i
    · subst hk
      rw [Function.update_same]
      exact assign_state_valid _ _ (hw k)
    · rw [Function.update_noteq hk]
      exact hw k
  | compound_raw i op x =>
    simp only [Command.run]
    by_cases hk : k = i
    · subst hk
      rw [Function.update_same]
      exact assign_state_valid _ _ (hw k)
    · rw [Function.update_noteq hk]
      exact hw k
  | compound_safe i j op =>
    simp only [Command.run]
    by_cases hk : k = i
    · subst hk
      rw [Function.update_same]
      exact assign_state_valid _ _ (hw k)
    · rw [Function.update_noteq hk]
      exact hw k
  | swap i j =>
    simp only [Command.run]
    by_cases hj : k = j
    · subst hj
      rw [Function.update_same]
      exact hw i
    · rw [Function.update_noteq hj]
      by_cases hi : k = i
      · subst hi
        rw [Function.update_same]
        exact hw j
      · rw [Function.update_noteq hi]
        exact hw k

/-- C8: in a program whose owning wrappers of one instantiation were all obtained by a
successful `construct(v)`, after any sequence of assignments, compound assignments
(any operator, raw or wrapper right operand) and swaps between them, each having
succeeded or raised, every wrapper still satisfies `V.check(w.read())`. -/
theorem wrapper_invariant {T E Y R : Type} (V : Validation T E) (w0 : Nat → safe V)
    (h0 : ∀ i, ∃ v, safe.construct V v = .ok (w0 i)) (cs : List (Command T Y R))
    (i : Nat) : V.validate (run_all cs w0 i).data = .ok () := by
  have hstart : ∀ i, V.validate (w0 i).data = .ok () := by
    intro k
    obtain ⟨v, hv⟩ := h0 k
    exact construct_result_valid V v (w0 k) hv
  clear h0
  induction cs generalizing w0 with
  | nil => exact hstart i
  | cons c cs ih =>
    simp only [run_all, List.foldl_cons]
    exact ih (c.run w0) (run_keeps_valid c w0 hstart)

/-- C8 on the steps of test_int (test.cpp:183-204) followed by a swap: construct 8,
assign 16, `+= 1`, assign 33 (raises), swap with a second wrapper. -/
theorem wrapper_invariant_witness :
    (∀ i : Nat, ∃ v, safe.construct (max_validation 32) v
        = .ok ((fun _ => ({ underlying := 8 } : safe_int)) i)) ∧
      (max_validation 32).validate
        (run_all [Command.assign 0 16, Command.compound_raw 0 int_plus 1,
            Command.assign 0 33, Command.swap 0 1]
          (fun _ => ({ underlying := 8 } : safe_int)) 0).data = .ok () :=
  have h : ∀ i : Nat, ∃ v, safe.construct (max_validation 32) v
      = .ok ((fun _ => ({ underlying := 8 } : safe_int)) i) := fun _ => ⟨8, rfl⟩
  ⟨h, wrapper_invariant (max_validation 32) _ h _ 0⟩

/-! ## C9: compound assignment on the reference variant -/

/-- C9, as stated, fails: for a raw type whose `+=` saturates at 100 while its `+` does
not, under a maximum bound of 100 and an aliased location holding 60,
`V.check(60 + 50)` fails, yet `w += 50` raises nothing and the aliased location
becomes 100. -/
theorem compound_ref_not_binary :
    (max_validation 100).validate (saturating_plus.conv (saturating_plus.binary 60 50))
        = .error (.invalid_value 110) ∧
      (compound_ref_raw saturating_plus ({ ref := 0 } : safe_ref (max_validation 100)) 50
        (fun _ => 60)).raised = none ∧
      (compound_ref_raw saturating_plus ({ ref := 0 } : safe_ref (max_validation 100)) 50
        (fun _ => 60)).state 0 = 100 :=
  ⟨rfl, rfl, rfl⟩

/-- C9 (amended): for an operator ⊗ whose raw compound form agrees with its binary
form, `w ⊗= x` on a reference-variant wrapper aliasing location `e` computes on a
scratch copy: when `V.check(e ⊗ x)` fails, its error is raised and the whole storage,
so both `w.read()` and `e`, keeps the prior value; when it succeeds, nothing is raised,
`w.read()` and `e` become `e ⊗ x`, and no other location changes. -/
theorem compound_ref_commits_or_keeps {T E Y R : Type} (V : Validation T E)
    (op : RawOp T Y R) (w : safe_ref V) (x : Y) (σ : Store T) (hop : op.agrees) :
    (∀ err, V.validate (op.conv (op.binary (σ w.ref) x)) = .error err →
        (compound_ref_raw op w x σ).raised = some err ∧
          (compound_ref_raw op w x σ).state = σ ∧
          w.data (compound_ref_raw op w x σ).state = w.data σ ∧
          (compound_ref_raw op w x σ).state w.ref = σ w.ref) ∧
      (V.validate (op.conv (op.binary (σ w.ref) x)) = .ok () →
        (compound_ref_raw op w x σ).raised = none ∧
          w.data (compound_ref_raw op w x σ).state = op.conv (op.binary (σ w.ref) x) ∧
          (compound_ref_raw op w x σ).state w.ref = op.conv (op.binary (σ w.ref) x) ∧
          ∀ l, l ≠ w.ref → (compound_ref_raw op w x σ).state l = σ l) := by
  have hc : compound_ref_raw op w x σ = w.assign (op.conv (op.binary (σ w.ref) x)) σ := by
    simp only [compound_ref_raw, safe_ref.data, hop (σ w.ref) x]
  constructor
  · intro err h
    rw [hc, ref_assign_error w _ σ err h]
    exact ⟨rfl, rfl, rfl, rfl⟩
  · intro h
    rw [hc, ref_assign_ok w _ σ h]
    refine ⟨rfl, ?_, ?_, ?_⟩
    · simp [safe_ref.data]
    · simp
    · intro l hl
      simp [Function.update_noteq hl]

/-- C9 (amended) on test_ref (test.cpp:255-274), decimal literals read as exact
rationals: with bound [0,10] and the aliased value 3.14, `*= 4` raises for 12.56 and
both the wrapper and the external value stay 3.14; then `/= 2` makes both 1.57. -/
theorem compound_ref_commits_or_keeps_witness :
    double_times_int.agrees ∧ double_div_int.agrees ∧
      (compound_ref_raw double_times_int ({ ref := 0 } : safe_dbl) 4
        (fun _ => 314 / 100)).raised = some (.invalid_value (1256 / 100)) ∧
      (compound_ref_raw double_times_int ({ ref := 0 } : safe_dbl) 4
        (fun _ => 314 / 100)).state = (fun _ => 314 / 100) ∧
      (compound_ref_raw double_div_int ({ ref := 0 } : safe_dbl) 2
        (fun _ => 314 / 100)).raised = none ∧
      (compound_ref_raw double_div_int ({ ref := 0 } : safe_dbl) 2
        (fun _ => 314 / 100)).state 0 = 157 / 100 :=
  have h1 : double_times_int.agrees := fun _ _ => rfl
  have h2 : double_div_int.agrees := fun _ _ => rfl
  have hfail : (range_validation 0 10).validate
      (double_times_int.conv (double_times_int.binary (314 / 100 : ℚ) 4))
      = .error (.invalid_value (1256 / 100)) := by
    simp only [range_validation, double_times_int]
    norm_num
  have hok : (range_validation 0 10).validate
      (double_div_int.conv (double_div_int.binary (314 / 100 : ℚ) 2)) = .ok () := by
    simp only [range_validation, double_div_int]
    norm_num
  have a := (compound_ref_commits_or_keeps (range_validation 0 10) double_times_int
    { ref := 0 } 4 (fun _ => 314 / 100) h1).1 _ hfail
  have b := (compound_ref_commits_or_keeps (range_validation 0 10) double_div_int
    { ref := 0 } 2 (fun _ => 314 / 100) h2).2 hok
  have hval : double_div_int.conv (double_div_int.binary (314 / 100 : ℚ) 2) = 157 / 100 := by
    simp only [double_div_int]
    norm_num
  ⟨h1, h2, a.1, a.2.1, b.1, b.2.2.1.trans hval⟩

/-! ## C10: explicit validate() -/

/-- C10: `validate()` raises exactly when `V.check(w.read())` fails on the current
value, with that error, and raises nothing exactly when it succeeds; in both cases the
owning wrapper is left as it was, and for the reference variant the whole storage, so
`w.read()` and the aliased location, is left as it was. -/
theorem validate_raises_iff_invalid {T E : Type} (V : Validation T E) (w : safe V)
    (wr : safe_ref V) (σ : Store T) :
    (w.validate.raised = none ↔ V.validate w.data = .ok ()) ∧
      (∀ e, w.validate.raised = some e ↔ V.validate w.data = .error e) ∧
      w.validate.state = w ∧
      ((wr.validate σ).raised = none ↔ V.validate (wr.data σ) = .ok ()) ∧
      (∀ e, (wr.validate σ).raised = some e ↔ V.validate (wr.data σ) = .error e) ∧
      (wr.validate σ).state = σ := by
  refine ⟨?_, ?_, ?_, ?_, ?_, ?_⟩
  · rcases validate_cases V w.data with h | ⟨e, h⟩ <;>
      simp only [safe.data] at h <;> simp [safe.validate, safe.data, h]
  · intro e
    rcases validate_cases V w.data with h | ⟨e1, h⟩ <;>
      simp only [safe.data] at h <;> simp [safe.validate, safe.data, h]
  · rcases validate_cases V w.data with h | ⟨e, h⟩ <;>
      simp only [safe.data] at h <;> simp [safe.validate, h]
  · rcases validate_cases V (wr.data σ) with h | ⟨e, h⟩ <;>
      simp only [safe_ref.data] at h <;> simp [safe_ref.validate, safe_ref.data, h]
  · intro e
    rcases validate_cases V (wr.data σ) with h | ⟨e1, h⟩ <;>
      simp only [safe_ref.data] at h <;> simp [safe_ref.validate, safe_ref.data, h]
  · rcases validate_cases V (wr.data σ) with h | ⟨e, h⟩ <;>
      simp only [safe_ref.data] at h <;> simp [safe_ref.validate, h]

/-! ## C11: out-of-band mutation of aliased storage -/

/-- C11: after the external owner writes any `v` to the location a reference-variant
wrapper aliases, `w.read()` is `v` at once, whether or not `V.check(v)` holds; the
write and the read are plain storage accesses that run no validation and raise
nothing, and no other location changes.  With bound [0,10], writing 100 makes
`read()` return 100 although the strategy rejects 100. -/
theorem external_write_is_read_back {T E : Type} (V : Validation T E) (w : safe_ref V)
    (v : T) (σ : Store T) :
    w.data (external_write w.ref v σ) = v ∧
      (∀ l, l ≠ w.ref → external_write w.ref v σ l = σ l) ∧
      (range_validation 0 10).validate 100 = .error (.invalid_value 100) ∧
      ({ ref := 0 } : safe_dbl).data (external_write 0 100 (fun _ => 157 / 100)) = 100 := by
  refine ⟨?_, ?_, ?_, ?_⟩
  · simp [external_write, safe_ref.data]
  · intro l hl
    simp [external_write, Function.update_noteq hl]
  · simp only [range_validation]
    norm_num
  · simp [external_write, safe_ref.data]

/-! ## C12: swap -/

/-- C12: for two wrappers of the same instantiation that both satisfy the strategy,
`w1.swap(w2)` exchanges the values exactly (it is a pure exchange: it evaluates no
validation and can raise nothing), and both still satisfy the strategy afterwards. -/
theorem swap_exchanges_values {T E : Type} (V : Validation T E) (w1 w2 : safe V)
    (h1 : V.validate w1.data = .ok ()) (h2 : V.validate w2.data = .ok ()) :
    (w1.swap w2).1.data = w2.data ∧ (w1.swap w2).2.data = w1.data ∧
      V.validate (w1.swap w2).1.data = .ok () ∧
      V.validate (w1.swap w2).2.data = .ok () :=
  ⟨rfl, rfl, h2, h1⟩

/-- C12 on two `safe_int` wrappers reading 17 and 8. -/
theorem swap_exchanges_values_witness :
    (({ underlying := 17 } : safe_int).swap { underlying := 8 }).1.data = 8 ∧
      (({ underlying := 17 } : safe_int).swap { underlying := 8 }).2.data = 17 :=
  have h := swap_exchanges_values (max_validation 32) { underlying := 17 }
    { underlying := 8 } rfl rfl
  ⟨h.1, h.2.1⟩

/-! ## C13: the logical operators -/

/-- C13, as stated, fails: for `safe_short`-like wrappers with minimum bound 3 reading
5 and 7, `a && b` and `a && 7` return the plain `bool` true, whereas wrapping that
result in the left operand's type and re-validating it would raise Invalid Value for
1; likewise `a || 0`. -/
theorem logical_operators_return_bool :
    logical_safe_safe short_and ({ underlying := 5 } : safe (min_validation 3))
        ({ underlying := 7 } : safe (min_validation 3)) = true ∧
      logical_safe_raw short_and ({ underlying := 5 } : safe (min_validation 3)) 7 = true ∧
      spec_logical_safe_raw short_and bool_to_short
        ({ underlying := 5 } : safe (min_validation 3)) 7 = .error (.invalid_value 1) ∧
      logical_safe_raw short_or ({ underlying := 5 } : safe (min_validation 3)) 0 = true ∧
      spec_logical_safe_raw short_or bool_to_short
        ({ underlying := 5 } : safe (min_validation 3)) 0 = .error (.invalid_value 1) :=
  ⟨rfl, rfl, rfl, rfl, rfl⟩

/-- C13 (amended): for the logical operators && and ||, unlike the arithmetic and
bitwise operators, `wrapper ⊗ wrapper` and `wrapper ⊗ raw` return the plain `bool`
`a.read() ⊗ b.read()`: no wrapper is built and no strategy is consulted, so the
result is the same for operands of any strategies with the same read values. -/
theorem logical_operators_unwrapped {T E T2 E2 Y : Type} (V : Validation T E)
    (V2 : Validation T2 E2) (op : T → T2 → Bool) (opy : T → Y → Bool) (a : safe V)
    (b : safe V2) (y : Y) :
    logical_safe_safe op a b = op a.data b.data ∧
      logical_safe_raw opy a y = opy a.data y ∧
      (∀ (E3 E4 : Type) (V3 : Validation T E3) (V4 : Validation T2 E4) (c : safe V3)
          (d : safe V4), c.data = a.data → d.data = b.data →
        logical_safe_safe op c d = logical_safe_safe op a b ∧
          logical_safe_raw opy c y = logical_safe_raw opy a y) := by
  refine ⟨rfl, rfl, ?_⟩
  intro E3 E4 V3 V4 c d hc hd
  simp only [logical_safe_safe, logical_safe_raw, hc, hd, and_self]

/-! ## C14: the `no_initial` strategy -/

/-- C14, as stated, fails: default construction of `uninitialized_date` in the release
configuration succeeds with the value not-a-date (test.cpp:367); of `percent` it
succeeds in the debug configuration reading 0 (test.cpp:132-134); and where it fails,
for `safe_short` in the debug configuration, the value 0 was handed to validation and
the error is the strategy's Invalid Value for 0, not Missing Initial Value. -/
theorem no_initial_constructs_a_value :
    safe.construct_default .deferred date_validation (no_initial date.not_a_date)
        = .ok { underlying := date.not_a_date } ∧
      safe.construct_default .strict percent_validation (no_initial 0)
        = .ok { underlying := 0 } ∧
      safe.construct_default .strict (min_validation 3) (no_initial 0)
        = .error (.invalid_value 0) ∧
      safe.construct_default .strict (min_validation 3) (no_initial 0)
        ≠ .error .missing_initial_value := by
  refine ⟨rfl, rfl, rfl, ?_⟩
  intro h
  have h2 : safe.construct_default .strict (min_validation 3) (no_initial 0)
      = .error (.invalid_value 0) := rfl
  rw [h2] at h
  cases h

/-- C14 (amended): default-constructing a wrapper whose default-value strategy is
`no_initial` takes the raw type's own default `T()` as the underlying value and treats
it like any other default: in the deferred (release) configuration the construction
always succeeds reading `T()`; in the strict (debug) configuration `T()` is handed to
validation, the construction succeeds iff `V.check(T())` succeeds and otherwise raises
the strategy's own error. -/
theorem no_initial_default_construction {T E : Type} (V : Validation T E) (zero : T) :
    safe.construct_default .deferred V (no_initial zero) = .ok { underlying := zero } ∧
      safe.construct_default .strict V (no_initial zero) = safe.construct V zero ∧
      ((∃ w, safe.construct_default .strict V (no_initial zero) = .ok w) ↔
        V.validate zero = .ok ()) ∧
      (∀ w, safe.construct_default .strict V (no_initial zero) = .ok w → w.data = zero) ∧
      (∀ e, V.validate zero = .error e →
        safe.construct_default .strict V (no_initial zero) = .error e) := by
  have h := construct_characterised V zero
  exact ⟨rfl, rfl, h.1, h.2.1, h.2.2⟩

/-! ## C15: default construction -/

/-- C15: `construct()` takes `default_strategy.value()` as the underlying value.  In
the strict configuration it succeeds iff `V.check` of the default succeeds, then reads
the default, and otherwise raises the strategy's error; in the deferred configuration it
always succeeds reading the default, and a following `validate()` raises iff `V.check`
of that default fails. -/
theorem default_construction {T E : Type} (V : Validation T E) (I : Initial T) :
    ((∃ w, safe.construct_default .strict V I = .ok w) ↔ V.validate I.value = .ok ()) ∧
      (∀ w, safe.construct_default .strict V I = .ok w → w.data = I.value) ∧
      (∀ e, V.validate I.value = .error e →
        safe.construct_default .strict V I = .error e) ∧
      (∃ w, safe.construct_default .deferred V I = .ok w ∧ w.data = I.value ∧
        (w.validate.raised = none ↔ V.validate I.value = .ok ()) ∧
        (∀ e, w.validate.raised = some e ↔ V.validate I.value = .error e) ∧
        w.validate.state = w) := by
  have h := construct_characterised V I.value
  refine ⟨h.1, h.2.1, h.2.2, { underlying := I.value }, rfl, rfl, ?_, ?_, ?_⟩
  · rcases validate_cases V I.value with hv | ⟨e, hv⟩ <;> simp [safe.validate, hv]
  · intro e
    rcases validate_cases V I.value with hv | ⟨e1, hv⟩ <;> simp [safe.validate, hv]
  · rcases validate_cases V I.value with hv | ⟨e, hv⟩ <;> simp [safe.validate, hv]

/-! ## C16: assign commits a valid candidate -/

/-- C16: whenever `V.check(c)` succeeds, `assign(c)` raises nothing and the wrapper
then reads `c`, whatever it read before; for the reference variant the aliased location
then holds `c`. -/
theorem assign_commits_valid {T E : Type} (V : Validation T E) (w : safe V)
    (wr : safe_ref V) (σ : Store T) (c : T) (h : V.validate c = .ok ()) :
    (w.assign c).raised = none ∧ (w.assign c).state.data = c ∧
      (wr.assign c σ).raised = none ∧ wr.data (wr.assign c σ).state = c := by
  rw [assign_ok w c h, ref_assign_ok wr c σ h]
  refine ⟨rfl, rfl, rfl, ?_⟩
  simp [safe_ref.data]

/-- C16 at test.cpp:188-189: `safe_int` reading 8, `i = 16` succeeds and reads 16. -/
theorem assign_commits_valid_witness :
    (max_validation 32).validate 16 = .ok () ∧
      (({ underlying := 8 } : safe_int).assign 16).raised = none ∧
      (({ underlying := 8 } : safe_int).assign 16).state.data = 16 :=
  have h := assign_commits_valid (max_validation 32) { underlying := 8 } { ref := 0 }
    (fun _ => 8) 16 rfl
  ⟨rfl, h.1, h.2.1⟩

/-! ## C17: the string length scenario -/

/-- C17: for `safe_str` (maximum length 8, initial value "foo"), for every current
value `s` and raw string `t`, `w += t` succeeds and leaves `s` followed by `t` when
that has at most 8 characters, and otherwise raises Invalid Value and leaves `s`;
assigning a string longer than 8 characters raises and leaves `s`.  Default
construction reads "foo"; "foo" += " bar" reads "foo bar"; assigning "long foo bar"
raises and "foo bar" remains. -/
theorem safe_str_scenario (s t c : String) (cfg : BuildConfig) :
    ((s ++ t).length ≤ 8 →
        (compound_safe_raw string_plus ({ underlying := s } : safe_str) t).raised = none ∧
          (compound_safe_raw string_plus ({ underlying := s } : safe_str) t).state.data
            = s ++ t) ∧
      (8 < (s ++ t).length →
        (compound_safe_raw string_plus ({ underlying := s } : safe_str) t).raised
            = some (.invalid_value (s ++ t)) ∧
          (compound_safe_raw string_plus ({ underlying := s } : safe_str) t).state.data
            = s) ∧
      (8 < c.length →
        (({ underlying := s } : safe_str).assign c).raised = some (.invalid_value c) ∧
          (({ underlying := s } : safe_str).assign c).state.data = s) ∧
      safe.construct_default cfg (str_length_validation 8) str_initial
        = .ok { underlying := "foo" } ∧
      (compound_safe_raw string_plus ({ underlying := "foo" } : safe_str) " bar").raised
        = none ∧
      (compound_safe_raw string_plus ({ underlying := "foo" } : safe_str) " bar").state.data
        = "foo bar" ∧
      (({ underlying := "foo bar" } : safe_str).assign ("long " ++ "foo bar")).raised
        = some (.invalid_value "long foo bar") ∧
      (({ underlying := "foo bar" } : safe_str).assign ("long " ++ "foo bar")).state.data
        = "foo bar" := by
  have hc : compound_safe_raw string_plus ({ underlying := s } : safe_str) t
      = ({ underlying := s } : safe_str).assign (s ++ t) := rfl
  refine ⟨?_, ?_, ?_, ?_, ?_, ?_, ?_, ?_⟩
  · intro h
    have hv : (str_length_validation 8).validate (s ++ t) = .ok () := by
      simp only [str_length_validation, h, if_true]
    rw [hc, assign_ok _ _ hv]
    exact ⟨rfl, rfl⟩
  · intro h
    have hv : (str_length_validation 8).validate (s ++ t)
        = .error (.invalid_value (s ++ t)) := by
      simp only [str_length_validation, Nat.not_le.mpr h, if_false]
    rw [hc, assign_error _ _ _ hv]
    exact ⟨rfl, rfl⟩
  · intro h
    have hv : (str_length_validation 8).validate c = .error (.invalid_value c) := by
      simp only [str_length_validation, Nat.not_le.mpr h, if_false]
    rw [assign_error _ _ _ hv]
    exact ⟨rfl, rfl⟩
  · cases cfg <;> rfl
  · rfl
  · rfl
  · rfl
  · rfl

/-! ## C18: the percentage scenario -/

/-- C18 on the code: with the constants of test.cpp:85-86 the range of `percent` is
[0, 0], so on a default-constructed `percent` (reading 0) `p = 0.5` raises Invalid
Value and 0 stays, and so does `p = 1`. -/
theorem percent_rejects_half :
    percent_validation.validate (1 / 2) = .error (.invalid_value (1 / 2)) ∧
      (({ underlying := 0 } : percent).assign (1 / 2)).raised
        = some (.invalid_value (1 / 2)) ∧
      (({ underlying := 0 } : percent).assign (1 / 2)).state.data = 0 ∧
      (({ underlying := 0 } : percent).assign 1).raised = some (.invalid_value 1) := by
  have hv : percent_validation.validate (1 / 2) = .error (.invalid_value (1 / 2)) := by
    simp only [percent_validation, range_validation, percent_min, percent_max]
    norm_num
  have hv1 : percent_validation.validate 1 = .error (.invalid_value 1) := by
    simp only [percent_validation, range_validation, percent_min, percent_max]
    norm_num
  refine ⟨hv, ?_, ?_, ?_⟩
  · rw [assign_error _ _ _ hv]
  · rw [assign_error _ _ _ hv]
    rfl
  · rw [assign_error _ _ _ hv1]

/-! ## C19: the integer max-bound scenario -/

/-- C19: for `safe_int` (maximum bound 32, initial value 8) default construction reads
8 in either configuration; from any current value `u`, `assign(c)` succeeds iff
`c ≤ 32` and then reads `c`, so every negative `c` such as -128 is accepted; a `c`
above 32 such as 33 raises Invalid Value and leaves `u`; and `+= 1` on a wrapper
reading 16 leaves it reading 17. -/
theorem safe_int_scenario (u c : Int) (cfg : BuildConfig) :
    safe.construct_default cfg (max_validation 32) safe_int_initial
        = .ok { underlying := 8 } ∧
      ((({ underlying := u } : safe_int).assign c).raised = none ↔ c ≤ 32) ∧
      (c ≤ 32 → (({ underlying := u } : safe_int).assign c).state.data = c) ∧
      (c < 0 → (({ underlying := u } : safe_int).assign c).raised = none ∧
        (({ underlying := u } : safe_int).assign c).state.data = c) ∧
      (32 < c → (({ underlying := u } : safe_int).assign c).raised
          = some (.invalid_value c) ∧
        (({ underlying := u } : safe_int).assign c).state.data = u) ∧
      (({ underlying := 17 } : safe_int).assign (-128)).state.data = -128 ∧
      (({ underlying := 17 } : safe_int).assign 33).raised = some (.invalid_value 33) ∧
      (({ underlying := 17 } : safe_int).assign 33).state.data = 17 ∧
      (compound_safe_raw int_plus ({ underlying := 16 } : safe_int) 1).raised = none ∧
      (compound_safe_raw int_plus ({ underlying := 16 } : safe_int) 1).state.data = 17 := by
  have hok : c ≤ 32 → (max_validation 32).validate c = .ok () := by
    intro h
    simp only [max_validation, h, if_true]
  have herr : 32 < c → (max_validation 32).validate c = .error (.invalid_value c) := by
    intro h
    simp only [max_validation, not_le.mpr h, if_false]
  refine ⟨?_, ?_, ?_, ?_, ?_, rfl, rfl, rfl, rfl, rfl⟩
  · cases cfg <;> rfl
  · constructor
    · intro h
      by_contra hc
      rw [assign_error _ _ _ (herr (not_le.mp hc))] at h
      cases h
    · intro h
      rw [assign_ok _ _ (hok h)]
  · intro h
    rw [assign_ok _ _ (hok h)]
    rfl
  · intro h
    rw [assign_ok _ _ (hok (by omega))]
    exact ⟨rfl, rfl⟩
  · intro h
    rw [assign_error _ _ _ (herr h)]
    exact ⟨rfl, rfl⟩

/-! ## C20: a binary operator can fail on valid inputs -/

/-- C20: under the maximum bound 32 there are two wrappers, reading 20 and 20, that
both satisfy the strategy and whose sum `a + b` raises Invalid Value for 40: the
strategy rejects `a.read() + b.read()`. -/
theorem binary_operator_fails_on_valid_operands :
    ∃ a b : safe_int,
      (max_validation 32).validate a.data = .ok () ∧
        (max_validation 32).validate b.data = .ok () ∧
        (max_validation 32).validate (int_plus.conv (int_plus.binary a.data b.data))
          = .error (.invalid_value 40) ∧
        operator_safe_safe int_plus a b = .error (.invalid_value 40) :=
  ⟨{ underlying := 20 }, { underlying := 20 }, rfl, rfl, rfl, rfl⟩

/-! ## C21: a wrapper right operand is used by its value -/

/-- C21, as stated, fails where the right operand is the left operand itself: for a
`safe_int` reading 8, `w += w` succeeds and the right operand, being `w`, reads 16
afterwards instead of 8. -/
theorem self_operand_is_changed :
    ((fun _ => { underlying := 8 } : Nat → safe_int) 0).data = 8 ∧
      (compound_at int_plus 0 0 (fun _ => ({ underlying := 8 } : safe_int))).raised = none ∧
      ((compound_at int_plus 0 0 (fun _ => ({ underlying := 8 } : safe_int))).state 0).data
        = 16 :=
  ⟨rfl, rfl, rfl⟩

/-- C21 (amended): for every operator, a wrapper right operand `r` of any instantiation
is used only through its read value: `w ⊗= r` has the outcome of `w ⊗= r.read()` and
`w ⊗ r` the outcome of `w ⊗ r.read()`, also when `r` is `w` itself or aliases the same
storage; the outcome is the same for a right operand of any other strategy with the
same read value; and `r` is left unchanged whenever it is a different object from `w`
(for reference variants: does not alias the location `w` aliases). -/
theorem wrapper_operand_used_by_value {T E Y R E2 E3 R2 : Type} (V : Validation T E)
    (V2 : Validation Y E2) (V3 : Validation T E3) (op : RawOp T Y R) (w : safe V)
    (r : safe V2) (opT : RawOp T T R2) (i j : Nat) (ws : Nat → safe V)
    (wr : safe_ref V) (rr : safe_ref V3) (σ : Store T) :
    compound_safe_safe op w r = compound_safe_raw op w r.data ∧
      operator_safe_safe op w r = operator_safe_raw op w r.data ∧
      (∀ (E4 : Type) (V4 : Validation Y E4) (c : safe V4), c.data = r.data →
        compound_safe_safe op w c = compound_safe_safe op w r ∧
          operator_safe_safe op w c = operator_safe_safe op w r) ∧
      (compound_at opT i j ws).state i = (compound_safe_raw opT (ws i) (ws j).data).state ∧
      (compound_at opT i j ws).raised = (compound_safe_raw opT (ws i) (ws j).data).raised ∧
      (∀ k, k ≠ i → (compound_at opT i j ws).state k = ws k) ∧
      (j ≠ i → (compound_at opT i j ws).state j = ws j) ∧
      compound_ref_ref opT wr rr σ = compound_ref_raw opT wr (rr.data σ) σ ∧
      (rr.ref ≠ wr.ref → rr.data (compound_ref_ref opT wr rr σ).state = rr.data σ) := by
  refine ⟨rfl, rfl, ?_, ?_, rfl, ?_, ?_, rfl, ?_⟩
  · intro E4 V4 c hc
    simp only [compound_safe_safe, operator_safe_safe, hc, and_self]
  · simp [compound_at, compound_safe_raw]
  · intro k hk
    simp [compound_at, Function.update_noteq hk]
  · intro hj
    simp [compound_at, Function.update_noteq hj]
  · intro h
    rcases validate_cases V (opT.compound (wr.data σ) (rr.data σ)) with hv | ⟨e, hv⟩
    · have hs : compound_ref_ref opT wr rr σ
          = wr.assign (opT.compound (wr.data σ) (rr.data σ)) σ := rfl
      rw [hs, ref_assign_ok wr _ σ hv]
      exact Function.update_noteq h _ _
    · have hs : compound_ref_ref opT wr rr σ
          = wr.assign (opT.compound (wr.data σ) (rr.data σ)) σ := rfl
      rw [hs, ref_assign_error wr _ σ e hv]

/-! ## C22: binary and compound forms -/

/-- C22: for an owning wrapper `w`, a raw `x` and an operator ⊗ whose raw `a ⊗= b`
leaves `a` equal to `a ⊗ b`, the non-mutating `w ⊗ x` raises exactly when the mutating
`w ⊗= x` raises, with the same error, and when they succeed the wrapper returned by
`w ⊗ x` reads what `w` reads after `w ⊗= x`.  (`w ⊗ x` takes `w` by reference to const
and returns a new wrapper: `w` itself is not written.) -/
theorem binary_and_compound_agree {T E Y R : Type} (V : Validation T E)
    (op : RawOp T Y R) (w : safe V) (x : Y) (hop : op.agrees) :
    (∀ e, operator_safe_raw op w x = .error e ↔
        (compound_safe_raw op w x).raised = some e) ∧
      ((∃ r, operator_safe_raw op w x = .ok r) ↔
        (compound_safe_raw op w x).raised = none) ∧
      (∀ r, operator_safe_raw op w x = .ok r →
        r.data = (compound_safe_raw op w x).state.data) := by
  have hc : compound_safe_raw op w x = w.assign (op.conv (op.binary w.data x)) := by
    simp only [compound_safe_raw, hop w.data x]
  have ho : operator_safe_raw op w x = safe.construct V (op.conv (op.binary w.data x)) :=
    rfl
  rcases validate_cases V (op.conv (op.binary w.data x)) with hv | ⟨e, hv⟩
  · rw [hc, ho, assign_ok w _ hv, construct_ok V _ hv]
    refine ⟨?_, ?_, ?_⟩
    · intro e
      simp
    · simp
    · intro r hr
      cases hr
      rfl
  · rw [hc, ho, assign_error w _ e hv, construct_error V _ e hv]
    refine ⟨?_, ?_, ?_⟩
    · intro e1
      simp
    · simp
    · intro r hr
      cases hr

/-- C22 on `safe_int` reading 16 and `int` addition of 1: `i + 1` returns a wrapper
reading 17, as `i` reads after `i += 1`; and on the same wrapper with 20, both raise. -/
theorem binary_and_compound_agree_witness :
    int_plus.agrees ∧
      operator_safe_raw int_plus ({ underlying := 16 } : safe_int) 1
        = .ok { underlying := 17 } ∧
      (compound_safe_raw int_plus ({ underlying := 16 } : safe_int) 1).state.data = 17 ∧
      (compound_safe_raw int_plus ({ underlying := 16 } : safe_int) 20).raised
        = some (.invalid_value 36) :=
  have h : int_plus.agrees := fun _ _ => rfl
  have a := binary_and_compound_agree (max_validation 32) int_plus
    { underlying := 16 } 1 h
  have b := binary_and_compound_agree (max_validation 32) int_plus
    { underlying := 16 } 20 h
  ⟨h, rfl, (a.2.2 { underlying := 17 } rfl).symm, (b.1 (.invalid_value 36)).mp rfl⟩

/-! ## C23: self compound assignment -/

/-- C23, as stated, fails: for a raw type whose `+=` saturates at 100 while its `+` does
not, under a maximum bound of 100 a wrapper reading 60 accepts `w += w` and then reads
100, although `V.check(60 + 60)` fails; the same on a reference variant. -/
theorem self_compound_not_binary :
    (max_validation 100).validate (saturating_plus.conv (saturating_plus.binary 60 60))
        = .error (.invalid_value 120) ∧
      (compound_at saturating_plus 0 0
        (fun _ => ({ underlying := 60 } : safe (max_validation 100)))).raised = none ∧
      ((compound_at saturating_plus 0 0
        (fun _ => ({ underlying := 60 } : safe (max_validation 100)))).state 0).data
        = 100 ∧
      (compound_ref_ref saturating_plus ({ ref := 0 } : safe_ref (max_validation 100))
        ({ ref := 0 } : safe_ref (max_validation 100)) (fun _ => 60)).raised = none ∧
      (compound_ref_ref saturating_plus ({ ref := 0 } : safe_ref (max_validation 100))
        ({ ref := 0 } : safe_ref (max_validation 100)) (fun _ => 60)).state 0 = 100 :=
  ⟨rfl, rfl, rfl, rfl, rfl⟩

/-- C23 (amended): for every operator ⊗ whose raw compound form agrees with its binary
form and every wrapper `w` (the owning wrapper at index `i` of a program state, or a
reference variant over storage `σ`), `w ⊗= w` behaves as `assign(u ⊗ u)` with `u` the
value read before the call: both operands are read while `w` still holds `u`; when
`V.check(u ⊗ u)` succeeds nothing is raised and `w` reads `u ⊗ u`; when it fails its
error is raised and the whole state is as before, so `w` still reads `u`. -/
theorem self_compound_assign {T E R : Type} (V : Validation T E) (op : RawOp T T R)
    (i : Nat) (ws : Nat → safe V) (wr : safe_ref V) (σ : Store T) (hop : op.agrees) :
    (compound_at op i i ws).raised
        = ((ws i).assign (op.conv (op.binary (ws i).data (ws i).data))).raised ∧
      (compound_at op i i ws).state i
        = ((ws i).assign (op.conv (op.binary (ws i).data (ws i).data))).state ∧
      (V.validate (op.conv (op.binary (ws i).data (ws i).data)) = .ok () →
        (compound_at op i i ws).raised = none ∧
          ((compound_at op i i ws).state i).data
            = op.conv (op.binary (ws i).data (ws i).data)) ∧
      (∀ e, V.validate (op.conv (op.binary (ws i).data (ws i).data)) = .error e →
        (compound_at op i i ws).raised = some e ∧ (compound_at op i i ws).state = ws) ∧
      compound_ref_ref op wr wr σ
        = wr.assign (op.conv (op.binary (wr.data σ) (wr.data σ))) σ ∧
      (V.validate (op.conv (op.binary (wr.data σ) (wr.data σ))) = .ok () →
        (compound_ref_ref op wr wr σ).raised = none ∧
          wr.data (compound_ref_ref op wr wr σ).state
            = op.conv (op.binary (wr.data σ) (wr.data σ))) ∧
      (∀ e, V.validate (op.conv (op.binary (wr.data σ) (wr.data σ))) = .error e →
        (compound_ref_ref op wr wr σ).raised = some e ∧
          (compound_ref_ref op wr wr σ).state = σ) := by
  have hr : compound_ref_ref op wr wr σ
      = wr.assign (op.conv (op.binary (wr.data σ) (wr.data σ))) σ := by
    simp only [compound_ref_ref, hop (wr.data σ) (wr.data σ)]
  have hc : compound_at op i i ws
      = { state := Function.update ws i
            ((ws i).assign (op.conv (op.binary (ws i).data (ws i).data))).state,
          raised := ((ws i).assign (op.conv (op.binary (ws i).data (ws i).data))).raised } := by
    simp only [compound_at, hop (ws i).data (ws i).data]
  refine ⟨?_, ?_, ?_, ?_, hr, ?_, ?_⟩
  · rw [hc]
  · rw [hc]
    exact Function.update_same _ _ _
  · intro hv
    rw [hc, assign_ok (ws i) _ hv]
    exact ⟨rfl, congrArg safe.data (Function.update_same _ _ _)⟩
  · intro e hv
    rw [hc, assign_error (ws i) _ e hv]
    exact ⟨rfl, Function.update_eq_self _ _⟩
  · intro hv
    rw [hr, ref_assign_ok wr _ σ hv]
    simp [safe_ref.data]
  · intro e hv
    rw [hr, ref_assign_error wr _ σ e hv]
    exact ⟨rfl, rfl⟩

/-- C23 (amended) on `safe_int`: a wrapper reading 8 reads 16 after `w += w`. -/
theorem self_compound_assign_witness :
    int_plus.agrees ∧
      (max_validation 32).validate (int_plus.conv (int_plus.binary 8 8)) = .ok () ∧
      (compound_at int_plus 0 0 (fun _ => ({ underlying := 8 } : safe_int))).raised = none ∧
      ((compound_at int_plus 0 0 (fun _ => ({ underlying := 8 } : safe_int))).state 0).data
        = 16 :=
  have h : int_plus.agrees := fun _ _ => rfl
  have a := (self_compound_assign (max_validation 32) int_plus 0
    (fun _ => { underlying := 8 }) { ref := 0 } (fun _ => 8) h).2.2.1 rfl
  ⟨h, rfl, a.1, a.2⟩

end safe_data
